import Mathlib

/-!
Verification of the callback-to-future adapter (`CallbackFuture`) from
`src/lib.rs`, as a shallow embedding.

The Rust adapter holds an optional one-shot loader together with a shared
result slot (`Arc<Mutex<Option<T>>>`).  We embed the shared slot as a
`Shared` record holding the optional value plus an observable event trace
(store and wake events); the wake events record the identity of the waker
cloned by the poll that created the completion callback.  The loader is
embedded, as in the source, as a function that receives the completion
callback and acts on the shared state.
-/

namespace CallbackFut

/-- Result of one `poll` call, mirroring Rust's `Poll` enum. -/
inductive PollRes (T : Type) where
  | Ready (v : T)
  | Pending
  deriving Repr, DecidableEq

/-- Observable effects on the shared slot.  `store v` is the assignment
`*result.lock().unwrap() = Some(value)`; `wake w` is `waker.wake()` on the
waker with identity `w`. -/
inductive Event (T : Type) where
  | store (v : T)
  | wake (wakerId : Nat)
  deriving Repr, DecidableEq

/-- The shared result slot (`Arc<Mutex<Option<T>>>`) together with the
trace of store/wake events performed on it. -/
structure Shared (T : Type) where
  slot : Option T
  events : List (Event T)
  deriving Repr, DecidableEq

/-- A completion callback acts on the shared state given a value
(`Box<dyn FnOnce(T) + Send>` in the source). -/
def Callback (T : Type) : Type := T → Shared T → Shared T

/-- A loader receives the completion callback and acts on the shared state
(`FnOnce(Box<dyn FnOnce(T)>)` in the source; its only way to affect the
adapter is through the callback it is handed). -/
def Loader (T : Type) : Type := Callback T → Shared T → Shared T

/-- The completion callback built inside `poll` (src/lib.rs lines 69-72):
store the value into the shared slot, then wake the retained waker.  It is
closed over the identity `wakerId` of the waker cloned by that poll. -/
def mkCallback {T : Type} (wakerId : Nat) : Callback T :=
  fun value s =>
    { slot := some value
      events := s.events ++ [Event.store value, Event.wake wakerId] }

/-- The adapter: an optional one-shot loader plus the shared result slot
(src/lib.rs lines 11-14). -/
structure CallbackFuture (T : Type) where
  loader : Option (Loader T)
  result : Shared T

/-- Constructor from a loader (src/lib.rs lines 34-40): stores the loader
unexecuted, with an empty result slot. -/
def CallbackFuture.new {T : Type} (loader : Loader T) : CallbackFuture T :=
  { loader := some loader
    result := { slot := none, events := [] } }

/-- Ready constructor (src/lib.rs lines 51-56): no loader, result slot
pre-populated with the value. -/
def CallbackFuture.ready {T : Type} (value : T) : CallbackFuture T :=
  { loader := none
    result := { slot := some value, events := [] } }

/-- The poll operation (src/lib.rs lines 62-84).  `wakerId` identifies the
waker supplied through the `Context`.  If the loader is still present it is
taken out and invoked with a fresh completion callback closed over the
shared slot and the cloned waker, and `Pending` is returned; otherwise the
slot content is taken out (`Option::take` under the lock) and returned as
`Ready` when present, else `Pending`. -/
def CallbackFuture.poll {T : Type} (f : CallbackFuture T) (wakerId : Nat) :
    CallbackFuture T × PollRes T :=
  match f.loader with
  | some loader =>
      ({ loader := none, result := loader (mkCallback wakerId) f.result },
       PollRes.Pending)
  | none =>
      match f.result.slot with
      | some value =>
          ({ f with result := { f.result with slot := none } },
           PollRes.Ready value)
      | none => (f, PollRes.Pending)

/-- A later (asynchronous) invocation of the completion callback that was
created by the poll that took the loader out: the callback retained by the
wrapped operation is exactly `mkCallback wakerId`, applied to the shared
state. -/
def fireCallback {T : Type} (f : CallbackFuture T) (wakerId : Nat)
    (value : T) : CallbackFuture T :=
  { f with result := mkCallback wakerId value f.result }

/-- Iterated polling with a list of waker identities, discarding the poll
results and keeping the evolving adapter state. -/
def pollMany {T : Type} (f : CallbackFuture T) (ws : List Nat) :
    CallbackFuture T :=
  ws.foldl (fun g w => (g.poll w).fst) f

/-- Number of polls in a sequence that find the loader present and hence
invoke it. -/
def loaderInvocations {T : Type} : CallbackFuture T → List Nat → Nat
  | _, [] => 0
  | f, w :: ws =>
      (if f.loader.isSome then 1 else 0) + loaderInvocations (f.poll w).fst ws

/-- After any poll, the loader slot is empty: the loader-present branch
takes it out, and the other branch never restores it. -/
theorem poll_loader_none {T : Type} (f : CallbackFuture T) (w : Nat) :
    (f.poll w).fst.loader = none := by
  rcases f with ⟨lo, ⟨slot, ev⟩⟩
  cases lo <;> cases slot <;> rfl

/-- Polling a fully consumed adapter (no loader, empty slot) leaves it
unchanged and yields `Pending`. -/
theorem poll_consumed {T : Type} (f : CallbackFuture T) (w : Nat)
    (hl : f.loader = none) (hs : f.result.slot = none) :
    f.poll w = (f, PollRes.Pending) := by
  rcases f with ⟨lo, ⟨slot, ev⟩⟩
  cases lo <;> cases slot <;> simp_all [CallbackFuture.poll]

/-- Polling with no loader and a populated slot takes the value out and
returns it as `Ready`. -/
theorem poll_ready_of_slot {T : Type} (f : CallbackFuture T) (w : Nat)
    (v : T) (hl : f.loader = none) (hs : f.result.slot = some v) :
    f.poll w = ({ f with result := { f.result with slot := none } },
                PollRes.Ready v) := by
  rcases f with ⟨lo, ⟨slot, ev⟩⟩
  cases lo <;> cases slot <;> simp_all [CallbackFuture.poll]

/-- A sequence of polls of an adapter whose loader is absent never invokes
any loader. -/
theorem loaderInvocations_of_none {T : Type} (ws : List Nat)
    (f : CallbackFuture T) (h : f.loader = none) :
    loaderInvocations f ws = 0 := by
  induction ws generalizing f with
  | nil => rfl
  | cons w ws ih =>
      simp [loaderInvocations, h, ih (f.poll w).fst (poll_loader_none f w)]

/-- Repeated polling of a fully consumed adapter leaves it unchanged. -/
theorem pollMany_consumed {T : Type} (ws : List Nat) (f : CallbackFuture T)
    (hl : f.loader = none) (hs : f.result.slot = none) :
    pollMany f ws = f := by
  induction ws generalizing f with
  | nil => rfl
  | cons w ws ih =>
      show pollMany (f.poll w).fst ws = f
      rw [poll_consumed f w hl hs]
      exact ih f hl hs

/-- Claim C1: an adapter built with the ready constructor stores the value
in the result slot with no loader, and its first poll, finding no loader,
extracts that value and returns it as Ready. -/
theorem C1_ready_first_poll {T : Type} (v : T) (w : Nat) :
    (CallbackFuture.ready v).loader = none ∧
    (CallbackFuture.ready v).result.slot = some v ∧
    ((CallbackFuture.ready v).poll w).snd = PollRes.Ready v ∧
    ((CallbackFuture.ready v).poll w).fst.result.slot = none :=
  ⟨rfl, rfl, rfl, rfl⟩

/-- Claim C2: when no loader is present, poll with a populated slot removes
the value and returns it as Ready, poll with an empty slot returns Pending
and leaves the adapter unchanged, and the populated-slot branch is the only
one that ever returns Ready. -/
theorem C2_poll_no_loader {T : Type} :
    (∀ (f : CallbackFuture T) (w : Nat) (v : T),
      f.loader = none → f.result.slot = some v →
        f.poll w = ({ f with result := { f.result with slot := none } },
                    PollRes.Ready v)) ∧
    (∀ (f : CallbackFuture T) (w : Nat),
      f.loader = none → f.result.slot = none →
        f.poll w = (f, PollRes.Pending)) ∧
    (∀ (f fNext : CallbackFuture T) (w : Nat) (v : T),
      f.poll w = (fNext, PollRes.Ready v) →
        f.loader = none ∧ f.result.slot = some v) := by
  refine ⟨fun f w v hl hs => poll_ready_of_slot f w v hl hs,
          fun f w hl hs => poll_consumed f w hl hs,
          fun f fNext w v h => ?_⟩
  rcases f with ⟨lo, ⟨slot, ev⟩⟩
  cases lo <;> cases slot <;> simp_all [CallbackFuture.poll]

/-- Witness for C2 at concrete inputs: a ready adapter over Nat polled
once yields Ready 42, and the consumed adapter polled again is Pending. -/
theorem C2_witness :
    ((CallbackFuture.ready (42 : Nat)).poll 0 =
      ({ CallbackFuture.ready (42 : Nat) with
          result := { (CallbackFuture.ready (42 : Nat)).result with
                        slot := none } },
       PollRes.Ready 42)) ∧
    (((CallbackFuture.ready (42 : Nat)).poll 0).fst.poll 1 =
      (((CallbackFuture.ready (42 : Nat)).poll 0).fst, PollRes.Pending)) :=
  ⟨(C2_poll_no_loader).1 (CallbackFuture.ready 42) 0 42 rfl rfl,
   (C2_poll_no_loader).2.1 ((CallbackFuture.ready (42 : Nat)).poll 0).fst 1
     rfl rfl⟩

/-- Claim C3: the first poll of a loader-constructed adapter takes the
loader out, invokes it with a completion callback closed over the shared
slot and the cloned waker, and returns Pending; in particular a loader that
fires the callback synchronously still sees Pending from the first poll,
with the value already stored in the slot. -/
theorem C3_first_poll_invokes_loader {T : Type} (L : Loader T) (w : Nat)
    (v : T) :
    ((CallbackFuture.new L).poll w =
      ({ loader := none,
         result := L (mkCallback w) { slot := none, events := [] } },
       PollRes.Pending)) ∧
    (((CallbackFuture.new (fun cb s => cb v s)).poll w).snd =
      PollRes.Pending) ∧
    (((CallbackFuture.new (fun cb s => cb v s)).poll w).fst.result.slot =
      some v) :=
  ⟨rfl, rfl, rfl⟩

/-- Claim C4: over any sequence of polls the loader is invoked at most
once, because each poll leaves the loader slot empty and later polls find
no loader. -/
theorem C4_loader_at_most_once {T : Type} (f : CallbackFuture T)
    (ws : List Nat) (w : Nat) :
    loaderInvocations f ws ≤ 1 ∧ (f.poll w).fst.loader = none := by
  refine ⟨?_, poll_loader_none f w⟩
  cases hf : f.loader with
  | none =>
      rw [loaderInvocations_of_none ws f hf]
      exact Nat.zero_le 1
  | some L =>
      cases ws with
      | nil => exact Nat.zero_le 1
      | cons w0 ws =>
          have h0 : loaderInvocations f (w0 :: ws) =
              1 + loaderInvocations (f.poll w0).fst ws := by
            simp [loaderInvocations, hf]
          rw [h0, loaderInvocations_of_none ws (f.poll w0).fst
                (poll_loader_none f w0)]

/-- Claim C5: if the first poll of a loader-constructed adapter leaves the
slot holding v (the loader fired the completion callback synchronously),
then that first poll returned Pending and the very next poll returns
Ready v. -/
theorem C5_sync_completion {T : Type} (L : Loader T) (w wNext : Nat) (v : T)
    (h : ((CallbackFuture.new L).poll w).fst.result.slot = some v) :
    ((CallbackFuture.new L).poll w).snd = PollRes.Pending ∧
    (((CallbackFuture.new L).poll w).fst.poll wNext).snd =
      PollRes.Ready v := by
  refine ⟨rfl, ?_⟩
  rw [poll_ready_of_slot ((CallbackFuture.new L).poll w).fst wNext v rfl h]

/-- Witness for C5: the loader that synchronously completes with 42 leaves
42 in the slot after the first poll, which returned Pending, and the second
poll yields Ready 42. -/
theorem C5_witness :
    (((CallbackFuture.new (fun (cb : Callback Nat) s => cb 42 s)).poll
        0).fst.result.slot = some 42) ∧
    (((CallbackFuture.new (fun (cb : Callback Nat) s => cb 42 s)).poll
        0).snd = PollRes.Pending) ∧
    ((((CallbackFuture.new (fun (cb : Callback Nat) s => cb 42 s)).poll
        0).fst.poll 1).snd = PollRes.Ready 42) :=
  ⟨rfl,
   (C5_sync_completion (fun cb s => cb 42 s) 0 1 42 rfl).1,
   (C5_sync_completion (fun cb s => cb 42 s) 0 1 42 rfl).2⟩

/-- Claim C6: the completion callback stores the value into the shared slot
and only then signals the retained waker (the store event precedes the wake
event in the trace, and the slot already holds the value), so any poll
triggered by that wake observes the stored value and returns it. -/
theorem C6_store_then_wake {T : Type} (w : Nat) (v : T) (s : Shared T) :
    ((mkCallback w v s).slot = some v) ∧
    ((mkCallback w v s).events =
      s.events ++ [Event.store v, Event.wake w]) ∧
    (∀ (f : CallbackFuture T) (wNext : Nat), f.loader = none →
      ((fireCallback f w v).poll wNext).snd = PollRes.Ready v) := by
  refine ⟨rfl, rfl, fun f wNext hl => ?_⟩
  rw [poll_ready_of_slot (fireCallback f w v) wNext v hl rfl]

/-- Witness for C6: firing the callback with 42 on a loaderless adapter
stores 42 with the store event before the wake event, and a subsequent poll
returns Ready 42. -/
theorem C6_witness :
    ((mkCallback 0 (42 : Nat) { slot := none, events := [] }).slot =
      some 42) ∧
    ((mkCallback 0 (42 : Nat) { slot := none, events := [] }).events =
      [Event.store 42, Event.wake 0]) ∧
    (((fireCallback
        { loader := none, result := { slot := none, events := [] } }
        0 (42 : Nat)).poll 1).snd = PollRes.Ready 42) :=
  ⟨(C6_store_then_wake 0 (42 : Nat) { slot := none, events := [] }).1,
   (C6_store_then_wake 0 (42 : Nat) { slot := none, events := [] }).2.1,
   (C6_store_then_wake 0 (42 : Nat) { slot := none, events := [] }).2.2
     { loader := none, result := { slot := none, events := [] } } 1 rfl⟩

/-- Claim C7: once a poll has returned Ready, the resulting adapter has no
loader and an empty slot, and every subsequent poll leaves it unchanged and
returns Pending, forever: the value is never replayed. -/
theorem C7_single_use {T : Type} (f fNext : CallbackFuture T) (w : Nat)
    (v : T) (h : f.poll w = (fNext, PollRes.Ready v)) :
    fNext.loader = none ∧ fNext.result.slot = none ∧
    ∀ (ws : List Nat) (wLast : Nat),
      pollMany fNext ws = fNext ∧
      (pollMany fNext ws).poll wLast = (fNext, PollRes.Pending) := by
  rcases f with ⟨lo, ⟨slot, ev⟩⟩
  cases lo with
  | some L => simp [CallbackFuture.poll] at h
  | none =>
      cases slot with
      | none => simp [CallbackFuture.poll] at h
      | some v0 =>
          simp [CallbackFuture.poll] at h
          obtain ⟨hf, hv⟩ := h
          subst hf
          refine ⟨rfl, rfl, fun ws wLast => ?_⟩
          have hm := pollMany_consumed ws
            (⟨none, ⟨none, ev⟩⟩ : CallbackFuture T) rfl rfl
          rw [hm]
          exact ⟨rfl, poll_consumed _ wLast rfl rfl⟩

/-- Witness for C7: after a ready adapter yields Ready 42, two further
polls leave it unchanged and a third returns Pending. -/
theorem C7_witness :
    (((CallbackFuture.ready (42 : Nat)).poll 0).fst.loader = none) ∧
    (((CallbackFuture.ready (42 : Nat)).poll 0).fst.result.slot = none) ∧
    ((pollMany ((CallbackFuture.ready (42 : Nat)).poll 0).fst [1, 2]).poll 3
      = (((CallbackFuture.ready (42 : Nat)).poll 0).fst,
         PollRes.Pending)) := by
  have h := C7_single_use (CallbackFuture.ready (42 : Nat))
    ((CallbackFuture.ready (42 : Nat)).poll 0).fst 0 42 rfl
  exact ⟨h.1, h.2.1, (h.2.2 [1, 2] 3).2⟩

/-- Claim C8: invoking the completion callback a second time simply
overwrites the slot content (last write wins), without any detection or
rejection, and a subsequent poll yields the most recently stored value. -/
theorem C8_double_completion {T : Type} (f : CallbackFuture T)
    (w1 w2 wNext : Nat) (v1 v2 : T) (h : f.loader = none) :
    ((fireCallback (fireCallback f w1 v1) w2 v2).result.slot = some v2) ∧
    (((fireCallback (fireCallback f w1 v1) w2 v2).poll wNext).snd =
      PollRes.Ready v2) := by
  refine ⟨rfl, ?_⟩
  rw [poll_ready_of_slot (fireCallback (fireCallback f w1 v1) w2 v2)
    wNext v2 h rfl]

/-- Witness for C8: firing the callback with 1 and then 7 on a loaderless
adapter leaves 7 in the slot, and the next poll returns Ready 7. -/
theorem C8_witness :
    ((fireCallback (fireCallback
        { loader := none, result := { slot := none, events := [] } }
        0 (1 : Nat)) 0 7).result.slot = some 7) ∧
    (((fireCallback (fireCallback
        { loader := none, result := { slot := none, events := [] } }
        0 (1 : Nat)) 0 7).poll 2).snd = PollRes.Ready 7) :=
  C8_double_completion
    { loader := none, result := { slot := none, events := [] } }
    0 0 2 1 7 rfl

/-- Claim C9: at construction time exactly one of loader-present and
slot-populated holds: the loader constructor stores the loader unexecuted
with an empty slot, and the ready constructor stores the value with no
loader. -/
theorem C9_construction_invariant {T : Type} (L : Loader T) (v : T) :
    ((CallbackFuture.new L).loader = some L ∧
     (CallbackFuture.new L).result.slot = none ∧
     (CallbackFuture.new L).result.events = []) ∧
    ((CallbackFuture.ready v).loader = none ∧
     (CallbackFuture.ready v).result.slot = some v) ∧
    (Bool.xor (CallbackFuture.new L).loader.isSome
       (CallbackFuture.new L).result.slot.isSome = true) ∧
    (Bool.xor (CallbackFuture.ready v).loader.isSome
       (CallbackFuture.ready v).result.slot.isSome = true) :=
  ⟨⟨rfl, rfl, rfl⟩, ⟨rfl, rfl⟩, rfl, rfl⟩

/-- Claim C10: only the loader-taking poll reads or retains the supplied
waker: a poll that finds no loader yields the same outcome for any waker
argument, the state after the first poll of a loader-constructed adapter is
the loader applied to the callback closed over that poll's waker, and every
wake the callback ever emits carries the waker identity captured at its
creation. -/
theorem C10_waker_frame {T : Type} :
    (∀ (f : CallbackFuture T) (w1 w2 : Nat), f.loader = none →
        f.poll w1 = f.poll w2) ∧
    (∀ (L : Loader T) (w : Nat),
        ((CallbackFuture.new L).poll w).fst.result =
          L (mkCallback w) { slot := none, events := [] }) ∧
    (∀ (w : Nat) (v : T) (s : Shared T),
        (mkCallback w v s).events =
          s.events ++ [Event.store v, Event.wake w]) := by
  refine ⟨fun f w1 w2 hl => ?_, fun L w => rfl, fun w v s => rfl⟩
  rcases f with ⟨lo, ⟨slot, ev⟩⟩
  cases lo <;> cases slot <;> simp_all [CallbackFuture.poll]

/-- Witness for C10: a ready adapter polled with waker 0 and with waker 5
yields identical outcomes, showing the waker argument is untouched when no
loader is present. -/
theorem C10_witness :
    (CallbackFuture.ready (7 : Nat)).poll 0 =
      (CallbackFuture.ready (7 : Nat)).poll 5 :=
  (C10_waker_frame).1 (CallbackFuture.ready (7 : Nat)) 0 5 rfl

end CallbackFut
